import Mathlib

/-!
# Verification of the VirtualPackaging geometry and layout core

Shallow embedding of the packaging core of the VirtualPackaging repository:

* the text layout engine of `src/core/intelligence/labeling.py`
  (`recommend_text_placement`, `_refine_text_placements`),
* the dimension optimizer and box shell generator of
  `src/core/design/box_generator.py` (`optimize_box_dimensions`,
  `generate_standard_box`, `calculate_bounding_box`, `add_padding`),
* the error-wrapping structure of `generate_negative_holder` in
  `src/core/design/internal_structure.py`.

Python float arithmetic is modelled exactly: by `ℚ` where the source only
adds, multiplies and divides, and by `ℝ` where a cube root occurs.  Python
dictionaries are modelled as insertion-ordered association lists, and the
CPython rule that advancing a dict iterator after the dict changed size
raises `RuntimeError` is modelled explicitly, as is Python's in-place list
iteration (by an index into a growable list, with fuel for totality).
-/

/-- The `TextElementType` enum of labeling.py (lines 21-35). -/
inductive TextElementType where
  | PRODUCT_NAME
  | DESCRIPTION
  | FEATURES
  | INSTRUCTIONS
  | INGREDIENTS
  | REGULATORY
  | BRAND
  | WARNING
  | NUTRITION
  | SUSTAINABILITY
  | CONTACT
  | BARCODE
  | RECYCLING
  deriving DecidableEq, Repr

/-- The `TextPlacement` enum of labeling.py (lines 38-49). -/
inductive TextPlacement where
  | FRONT
  | BACK
  | TOP
  | BOTTOM
  | LEFT
  | RIGHT
  | FRONT_TOP
  | FRONT_BOTTOM
  | BACK_TOP
  | BACK_BOTTOM
  deriving DecidableEq, Repr

/-- The `TextOrientation` enum of labeling.py (lines 52-57). -/
inductive TextOrientation where
  | HORIZONTAL
  | VERTICAL
  | ROTATED_90
  | ROTATED_270
  deriving DecidableEq, Repr

/-- A text style record (`font_size`, `font_weight`, `color`), as stored in
`PackagingLabeling.default_styles` (labeling.py lines 90-121).  Strings are
kept as character lists. -/
structure TextStyle where
  fontSize : ℚ
  fontWeight : List Char
  color : List Char
  deriving DecidableEq, Repr

/-- The `default_styles` dictionary of `PackagingLabeling.__init__`
(labeling.py lines 90-121): six element types carry a style, every other
lookup `default_styles.get(et, {})` yields the empty dict, modelled as
`none`. -/
def defaultStyle : TextElementType → Option TextStyle
  | .PRODUCT_NAME => some ⟨24, "bold".toList, "#000000".toList⟩
  | .DESCRIPTION => some ⟨12, "normal".toList, "#333333".toList⟩
  | .FEATURES => some ⟨14, "normal".toList, "#333333".toList⟩
  | .INSTRUCTIONS => some ⟨10, "normal".toList, "#333333".toList⟩
  | .WARNING => some ⟨12, "bold".toList, "#FF0000".toList⟩
  | .REGULATORY => some ⟨8, "normal".toList, "#333333".toList⟩
  | _ => none

/-- The font size used by the footprint estimate:
`default_styles.get(element_type, {}).get("font_size", 12)`
(labeling.py line 862). -/
def defaultFontSize (et : TextElementType) : ℚ :=
  match defaultStyle et with
  | some s => s.fontSize
  | none => 12

/-- The `default_placements` dictionary of `recommend_text_placement`
(labeling.py lines 836-850).  All thirteen element types are present, so the
fallback `default_placements.get(element_type, TextPlacement.BACK)` of line
881 can only ever return one of the values below. -/
def defaultPlacement : TextElementType → TextPlacement
  | .PRODUCT_NAME => .FRONT
  | .DESCRIPTION => .BACK
  | .FEATURES => .BACK
  | .INSTRUCTIONS => .BACK
  | .INGREDIENTS => .BACK
  | .REGULATORY => .BACK
  | .BRAND => .FRONT
  | .WARNING => .BACK
  | .NUTRITION => .BACK
  | .SUSTAINABILITY => .BACK
  | .CONTACT => .BACK
  | .BARCODE => .BOTTOM
  | .RECYCLING => .BOTTOM

/-- The `surfaces` dictionary of `recommend_text_placement` (labeling.py
lines 826-833).  Only the six box faces are keys of the Python dict; the
four combined placements are looked up by no reachable code path and are
mapped to `(0, 0)` here. -/
def surfaceDims (width height depth : ℚ) : TextPlacement → ℚ × ℚ
  | .FRONT => (width, height)
  | .BACK => (width, height)
  | .TOP => (width, depth)
  | .BOTTOM => (width, depth)
  | .LEFT => (depth, height)
  | .RIGHT => (depth, height)
  | _ => (0, 0)

/-- A value of the `text_content` dictionary: either a string or a list of
strings (labeling.py line 812, `Union[str, List[str]]`). -/
inductive TextContent where
  | str (s : List Char)
  | strList (ss : List (List Char))
  deriving DecidableEq, Repr

/-- The string the footprint estimate measures: `"\n".join(content)` for a
list, `str(content)` for a string (labeling.py lines 855-859). -/
def contentChars : TextContent → List Char
  | .str s => s
  | .strList ss => List.intercalate ['\n'] ss

/-- Python `int(q)`: truncation toward zero (the ceiling for negative
arguments, the floor otherwise), as applied to
`width / (font_size * 0.6)` on labeling.py line 863. -/
def pyInt (q : ℚ) : ℤ :=
  if q < 0 then ⌈q⌉ else ⌊q⌋

/-- The `height_needed` footprint estimate of `recommend_text_placement`
(labeling.py lines 861-865):
`chars_per_line = int(width / (font_size * 0.6))`,
`lines = len(content_str) / max(1, chars_per_line) + content_str.count("\n")`,
`height_needed = lines * font_size * 1.2`.  The float literals `0.6` and
`1.2` are modelled as the exact rationals they denote in the source text. -/
def heightNeeded (width : ℚ) (et : TextElementType) (c : TextContent) : ℚ :=
  let s := contentChars c
  let fontSize := defaultFontSize et
  let charsPerLine : ℤ := pyInt (width / (fontSize * (3 / 5)))
  let lines : ℚ := (s.length : ℚ) / ((max 1 charsPerLine : ℤ) : ℚ) + (s.count '\n' : ℚ)
  lines * fontSize * (6 / 5)

/-- A `position` record `{x, y}` in surface-local coordinates. -/
structure TextPos where
  x : ℚ
  y : ℚ
  deriving DecidableEq, Repr

/-- One placement record of the result dictionary of
`recommend_text_placement` (labeling.py lines 896-901): placement surface,
position, orientation and style. -/
structure PlacementInfo where
  placement : TextPlacement
  position : TextPos
  orientation : TextOrientation
  style : Option TextStyle
  deriving DecidableEq, Repr

/-- The result dictionary mapping element types to placement records,
as an insertion-ordered association list. -/
abbrev Placements := List (TextElementType × PlacementInfo)

/-- The initial placement record built for one element by
`recommend_text_placement` (labeling.py lines 878-901): default surface,
centered position, and orientation switched to vertical only when the
default surface is a side panel narrower than the element's estimated
width. -/
def initialPlacementInfo (width height depth : ℚ) (et : TextElementType)
    (sr : ℚ × ℚ) : PlacementInfo :=
  let placement := defaultPlacement et
  let surf := surfaceDims width height depth placement
  let orient :=
    if (placement = TextPlacement.LEFT ∨ placement = TextPlacement.RIGHT) ∧ sr.1 > surf.1
    then TextOrientation.VERTICAL
    else TextOrientation.HORIZONTAL
  ⟨placement, ⟨surf.1 / 2, surf.2 / 2⟩, orient, defaultStyle et⟩

/-- The `space_requirements` dictionary (labeling.py lines 853-870):
each element gets width `width * 0.8` and the estimated height. -/
def spaceRequirements (width : ℚ) (tc : List (TextElementType × TextContent)) :
    List (TextElementType × ℚ × ℚ) :=
  tc.map fun p => (p.1, (width * (4 / 5), heightNeeded width p.1 p.2))

/-- The initial `result` dictionary of `recommend_text_placement`
(labeling.py lines 872-901), in `text_content` insertion order. -/
def initialPlacements (width height depth : ℚ)
    (tc : List (TextElementType × TextContent)) : Placements :=
  tc.map fun p =>
    (p.1, initialPlacementInfo width height depth p.1 (width * (4 / 5), heightNeeded width p.1 p.2))

/-- The `elements_by_surface` dictionary of `_refine_text_placements`:
surface → list of element types, in insertion order. -/
abbrev SurfaceGroups := List (TextPlacement × List TextElementType)

/-- Append an element to the group of a surface, creating the key at the end
of the dict when absent (labeling.py lines 941-945 and 974-976). -/
def groupsAppend (g : SurfaceGroups) (s : TextPlacement) (et : TextElementType) :
    SurfaceGroups :=
  match g with
  | [] => [(s, [et])]
  | (s', l) :: rest =>
    if s' = s then (s', l ++ [et]) :: rest else (s', l) :: groupsAppend rest s et

/-- Current list stored for a surface (empty when the key is absent; every
lookup the source performs is on a present key). -/
def groupsFind (g : SurfaceGroups) (s : TextPlacement) : List TextElementType :=
  match g with
  | [] => []
  | (s', l) :: rest => if s' = s then l else groupsFind rest s

/-- Replace the list stored for a surface (models `elements.sort(...)`
mutating the dict's list in place, labeling.py line 968). -/
def groupsSet (g : SurfaceGroups) (s : TextPlacement) (l : List TextElementType) :
    SurfaceGroups :=
  g.map fun p => if p.1 = s then (p.1, l) else p

/-- Grouping of the initial placements by surface (labeling.py
lines 938-945). -/
def groupBySurface (ps : Placements) : SurfaceGroups :=
  ps.foldl (fun g p => groupsAppend g p.2.placement p.1) []

/-- The `element_priority` key of the stacking sort (labeling.py
lines 956-962). -/
def elementPriority : TextElementType → ℕ
  | .PRODUCT_NAME => 1
  | .BRAND => 2
  | .WARNING => 3
  | _ => 10

/-- Stable insertion of an element into a priority-sorted list: an element
inserted from the left precedes elements of equal priority. -/
def insertByPriority (x : TextElementType) : List TextElementType → List TextElementType
  | [] => [x]
  | y :: ys =>
    if elementPriority y < elementPriority x then y :: insertByPriority x ys
    else x :: y :: ys

/-- Stable sort by `element_priority`, agreeing with Python's stable
`list.sort(key=element_priority)` (labeling.py line 964). -/
def sortByPriority : List TextElementType → List TextElementType
  | [] => []
  | x :: xs => insertByPriority x (sortByPriority xs)

/-- Error outcomes of the layout engine.  `runtimeError` is CPython's
`RuntimeError: dictionary changed size during iteration`; `loopFuelExhausted`
stands for a Python loop that does not terminate. -/
inductive PyErr where
  | runtimeError
  | loopFuelExhausted
  deriving DecidableEq, Repr

/-- Mutable state of `_refine_text_placements`: the `result` dictionary and
`elements_by_surface`. -/
structure RefineState where
  result : Placements
  groups : SurfaceGroups
  deriving DecidableEq, Repr

/-- Update `result[et]["position"]["y"] = y` (labeling.py line 970). -/
def setY (ps : Placements) (et : TextElementType) (y : ℚ) : Placements :=
  ps.map fun p =>
    if p.1 = et then
      (p.1, ⟨p.2.placement, ⟨p.2.position.x, y⟩, p.2.orientation, p.2.style⟩)
    else p

/-- Overflow-migration update of a record: new surface, recentered `x`, and
`y` at the top of the new surface's stack (labeling.py lines 970-972 of the
migration branch). -/
def setMigrated (ps : Placements) (et : TextElementType) (ns : TextPlacement)
    (x y : ℚ) : Placements :=
  ps.map fun p =>
    if p.1 = et then (p.1, ⟨ns, ⟨x, y⟩, p.2.orientation, p.2.style⟩) else p

/-- The overflow surface chosen by `_refine_text_placements`
(labeling.py lines 963-967): front overflows to back, every other surface
overflows to bottom. -/
def overflowTarget (surface : TextPlacement) : TextPlacement :=
  if surface = TextPlacement.FRONT then TextPlacement.BACK else TextPlacement.BOTTOM

/-- The inner stacking loop `for element_type in elements:` of
`_refine_text_placements` (labeling.py lines 969-981).  Python iterates the
dict's own list by index, so an append to the list of the surface being
processed is seen by the iteration; the index-into-current-list model
reproduces that, with fuel standing in for Python's unbounded iteration. -/
def stackLoop (sq : List (TextElementType × ℚ × ℚ)) (surfs : TextPlacement → ℚ × ℚ)
    (surface : TextPlacement) :
    ℕ → ℕ → ℚ → RefineState → Except PyErr RefineState
  | 0, _, _, _ => .error .loopFuelExhausted
  | fuel + 1, i, yPos, st =>
    let elems := groupsFind st.groups surface
    if h : i < elems.length then
      let et := elems.get ⟨i, h⟩
      let space := (sq.lookup et).getD (0, 0)
      let st1 : RefineState := ⟨setY st.result et (yPos + space.2 / 2), st.groups⟩
      let yPos' := yPos + space.2 + 10
      if yPos' > (surfs surface).2 - 20 then
        let ns := overflowTarget surface
        let st2 : RefineState :=
          ⟨setMigrated st1.result et ns ((surfs ns).1 / 2) (20 + space.2 / 2),
            groupsAppend st1.groups ns et⟩
        stackLoop sq surfs surface fuel (i + 1) yPos' st2
      else
        stackLoop sq surfs surface fuel (i + 1) yPos' st1
    else
      .ok st

/-- The outer loop `for surface, elements in elements_by_surface.items():`
(labeling.py lines 948-981).  A CPython dict iterator compares the dict's
size with the size recorded at its creation on every advance and raises
`RuntimeError` on mismatch; since only insertions occur, comparing the
current size with the initial size `n0` is exact. -/
def surfacesLoop (sq : List (TextElementType × ℚ × ℚ)) (surfs : TextPlacement → ℚ × ℚ)
    (fuel : ℕ) :
    List TextPlacement → ℕ → RefineState → Except PyErr RefineState
  | [], n0, st =>
    if st.groups.length = n0 then .ok st else .error .runtimeError
  | s :: rest, n0, st =>
    if st.groups.length ≠ n0 then .error .runtimeError
    else
      let elems := groupsFind st.groups s
      if elems.length ≤ 1 then surfacesLoop sq surfs fuel rest n0 st
      else
        let st1 : RefineState := ⟨st.result, groupsSet st.groups s (sortByPriority elems)⟩
        match stackLoop sq surfs s fuel 0 20 st1 with
        | .error e => .error e
        | .ok st2 => surfacesLoop sq surfs fuel rest n0 st2

/-- Embeds `_refine_text_placements` (labeling.py lines 924-981). -/
def refineTextPlacements (fuel : ℕ) (initial : Placements)
    (surfs : TextPlacement → ℚ × ℚ) (sq : List (TextElementType × ℚ × ℚ)) :
    Except PyErr Placements :=
  let groups := groupBySurface initial
  Except.map (fun st : RefineState => st.result)
    (surfacesLoop sq surfs fuel (groups.map Prod.fst) groups.length ⟨initial, groups⟩)

/-- Embeds `recommend_text_placement` (labeling.py lines 809-906):
initial per-type placements followed by the overlap-refinement pass. -/
def recommendTextPlacement (fuel : ℕ) (boxDims : ℚ × ℚ × ℚ)
    (tc : List (TextElementType × TextContent)) : Except PyErr Placements :=
  refineTextPlacements fuel
    (initialPlacements boxDims.1 boxDims.2.1 boxDims.2.2 tc)
    (surfaceDims boxDims.1 boxDims.2.1 boxDims.2.2)
    (spaceRequirements boxDims.1 tc)

/-- A point in 3-space, with exact rational coordinates. -/
abbrev Vec3 := ℚ × ℚ × ℚ

/-- Componentwise addition. -/
def vecAdd (a b : Vec3) : Vec3 := (a.1 + b.1, a.2.1 + b.2.1, a.2.2 + b.2.2)

/-- Componentwise subtraction. -/
def vecSub (a b : Vec3) : Vec3 := (a.1 - b.1, a.2.1 - b.2.1, a.2.2 - b.2.2)

/-- Componentwise negation. -/
def vecNeg (a : Vec3) : Vec3 := (-a.1, -a.2.1, -a.2.2)

/-- Scaling by a rational. -/
def vecSMul (c : ℚ) (a : Vec3) : Vec3 := (c * a.1, c * a.2.1, c * a.2.2)

/-- Componentwise minimum. -/
def vecMin (a b : Vec3) : Vec3 := (min a.1 b.1, min a.2.1 b.2.1, min a.2.2 b.2.2)

/-- Componentwise maximum. -/
def vecMax (a b : Vec3) : Vec3 := (max a.1 b.1, max a.2.1 b.2.1, max a.2.2 b.2.2)

/-- Componentwise order on points. -/
def vecLe (a b : Vec3) : Prop := a.1 ≤ b.1 ∧ a.2.1 ≤ b.2.1 ∧ a.2.2 ≤ b.2.2

instance (a b : Vec3) : Decidable (vecLe a b) := by
  unfold vecLe
  infer_instance

/-- A triangle mesh reduced to its vertex list; faces play no part in any
verified property, every bound below is a vertex-set bound, matching the
axis-aligned bounding boxes the source computes. -/
abbrev Mesh := List Vec3

/-- The vertex set of `open3d.geometry.TriangleMesh.create_box(width, height,
depth)`: the eight corners of `[0,w] × [0,h] × [0,d]`. -/
def createBox (w h d : ℚ) : Mesh :=
  [(0, 0, 0), (w, 0, 0), (0, h, 0), (w, h, 0),
   (0, 0, d), (w, 0, d), (0, h, d), (w, h, d)]

/-- `mesh.translate(t)`. -/
def translateMesh (t : Vec3) (m : Mesh) : Mesh := m.map (vecAdd t)

/-- Modelled from the spec: the boolean solid subtraction
`outer_trimesh.difference(inner_trimesh)` is delegated to the external
solid-geometry provider (spec section 6, `subtract(solid_a, solid_b)`); for an
inner box contained in the outer box the hollow-shell result's vertex set is
the union of the two boxes' corner vertices. -/
def meshDifference (outer inner : Mesh) : Mesh := outer ++ inner

/-- Axis-aligned vertex bounds of a mesh: `none` on an empty vertex list. -/
def meshBounds : Mesh → Option (Vec3 × Vec3)
  | [] => none
  | v :: vs => some (vs.foldl vecMin v, vs.foldl vecMax v)

/-- Center of the axis-aligned vertex bounds. -/
def meshBBoxCenter (m : Mesh) : Option Vec3 :=
  match meshBounds m with
  | none => none
  | some (mn, mx) => some (vecSMul (1 / 2) (vecAdd mn mx))

/-- The outer solid of `generate_standard_box` (box_generator.py lines
150-154): a box of the padded dimensions plus `2 * wall_thickness` per
axis, at the origin. -/
def standardBoxOuter (min_bound max_bound : Vec3) (wall_thickness : ℚ) : Mesh :=
  let dims := vecSub max_bound min_bound
  createBox (dims.1 + 2 * wall_thickness) (dims.2.1 + 2 * wall_thickness)
    (dims.2.2 + 2 * wall_thickness)

/-- The inner cavity solid of `generate_standard_box` (box_generator.py lines
157-164): a box of exactly the padded dimensions, translated by
`(wall_thickness, wall_thickness, wall_thickness)`. -/
def standardBoxInner (min_bound max_bound : Vec3) (wall_thickness : ℚ) : Mesh :=
  let dims := vecSub max_bound min_bound
  translateMesh (wall_thickness, wall_thickness, wall_thickness)
    (createBox dims.1 dims.2.1 dims.2.2)

/-- Embeds `generate_standard_box` (box_generator.py lines 130-198): build the
outer and inner solids, subtract, then translate the hollow shell by the
negated original bounding-box center (lines 186-190). -/
def generateStandardBox (min_bound max_bound : Vec3) (wall_thickness : ℚ) : Mesh :=
  let hollow := meshDifference (standardBoxOuter min_bound max_bound wall_thickness)
    (standardBoxInner min_bound max_bound wall_thickness)
  let center := vecSMul (1 / 2) (vecAdd min_bound max_bound)
  translateMesh (vecNeg center) hollow

/-- Embeds `add_padding` (box_generator.py lines 56-76). -/
def addPadding (min_bound max_bound : Vec3) (padding : ℚ) : Vec3 × Vec3 :=
  (vecSub min_bound (padding, padding, padding),
   vecAdd (padding, padding, padding) max_bound)

/-- A point in 3-space with real coordinates, for the dimension optimizer
(whose volume constraint takes a cube root). -/
abbrev RVec3 := ℝ × ℝ × ℝ

/-- The `constraints` dictionary of `optimize_box_dimensions`
(box_generator.py lines 258-301): optional `max_width`, `max_height`,
`max_depth`, `max_volume`; an absent key is `none`. -/
structure BoxConstraints where
  max_width : Option ℝ
  max_height : Option ℝ
  max_depth : Option ℝ
  max_volume : Option ℝ

/-- The padded product dimensions computed by `optimize_box_dimensions`
(box_generator.py lines 284-293): `(max_bound + padding) - (min_bound -
padding)` componentwise. -/
def paddedDims (min_bound max_bound : RVec3) (padding : ℝ) : RVec3 :=
  ((max_bound.1 + padding) - (min_bound.1 - padding),
   (max_bound.2.1 + padding) - (min_bound.2.1 - padding),
   (max_bound.2.2 + padding) - (min_bound.2.2 - padding))

/-- The `max_width` block of `optimize_box_dimensions` (box_generator.py
lines 296-301).  Python's `if max_width and width > max_width:` is falsy for
an absent key and for the value `0.0`; when it fires, `width` is set to the
bound exactly and the other two dimensions are multiplied by
`scale = max_width / width`. -/
noncomputable def applyMaxWidth (dims : RVec3) (c : Option ℝ) : RVec3 :=
  match c with
  | none => dims
  | some m =>
    if m ≠ 0 ∧ dims.1 > m then
      (m, dims.2.1 * (m / dims.1), dims.2.2 * (m / dims.1))
    else dims

/-- The `max_height` block (box_generator.py lines 303-308). -/
noncomputable def applyMaxHeight (dims : RVec3) (c : Option ℝ) : RVec3 :=
  match c with
  | none => dims
  | some m =>
    if m ≠ 0 ∧ dims.2.1 > m then
      (dims.1 * (m / dims.2.1), m, dims.2.2 * (m / dims.2.1))
    else dims

/-- The `max_depth` block (box_generator.py lines 310-315). -/
noncomputable def applyMaxDepth (dims : RVec3) (c : Option ℝ) : RVec3 :=
  match c with
  | none => dims
  | some m =>
    if m ≠ 0 ∧ dims.2.2 > m then
      (dims.1 * (m / dims.2.2), dims.2.1 * (m / dims.2.2), m)
    else dims

/-- The `max_volume` block (box_generator.py lines 317-325): when the key is
truthy and the current volume exceeds it, all three dimensions are multiplied
by the one factor `(max_volume / volume) ** (1/3)`. -/
noncomputable def applyMaxVolume (dims : RVec3) (c : Option ℝ) : RVec3 :=
  match c with
  | none => dims
  | some m =>
    if m ≠ 0 then
      let volume := dims.1 * dims.2.1 * dims.2.2
      if volume > m then
        let scale := (m / volume) ^ ((1 : ℝ) / 3)
        (dims.1 * scale, dims.2.1 * scale, dims.2.2 * scale)
      else dims
    else dims

/-- Embeds `optimize_box_dimensions` (box_generator.py lines 259-328) from
the product bounding box on: pad the bounds, then apply the `max_width`,
`max_height`, `max_depth` blocks in that fixed order, then the `max_volume`
block. -/
noncomputable def optimizeBoxDimensions (min_bound max_bound : RVec3) (padding : ℝ)
    (constraints : BoxConstraints) : RVec3 :=
  let dims := paddedDims min_bound max_bound padding
  applyMaxVolume
    (applyMaxDepth
      (applyMaxHeight
        (applyMaxWidth dims constraints.max_width)
        constraints.max_height)
      constraints.max_depth)
    constraints.max_volume

/-- The error classes raised by the design modules.  `geometryError` is the
`GeometryError` named by the spec; the repository's modules define only
`BoxGeneratorError` (box_generator.py line 24) and `HolderGenerationError`
(internal_structure.py line 14).  `externalError` stands for an exception
raised inside an external library call (open3d, trimesh, numpy). -/
inductive PkgError where
  | boxGeneratorError
  | holderGenerationError
  | geometryError
  | externalError
  deriving DecidableEq, Repr

/-- Embeds the error structure of `calculate_bounding_box` (box_generator.py
lines 29-53): the open3d `get_axis_aligned_bounding_box` call is abstracted
as its outcome `aabb` (covering any behavior of the external library, return
or raise); a returned value is forwarded, and any exception is caught and
re-raised as `BoxGeneratorError` by the `except` clause of lines 50-53. -/
def calculateBoundingBox (aabb : Except PkgError (Vec3 × Vec3)) :
    Except PkgError (Vec3 × Vec3) :=
  match aabb with
  | .ok r => .ok r
  | .error _ => .error .boxGeneratorError

/-- Embeds the error structure of `generate_negative_holder`
(internal_structure.py lines 52-133): the whole body — bounding box, padding
scale, block construction, boolean subtraction — is abstracted as its outcome
`body`; the body contains no explicit empty-mesh check, and the `except`
clause of lines 130-133 re-raises any exception as `HolderGenerationError`. -/
def generateNegativeHolder (body : Except PkgError Mesh) : Except PkgError Mesh :=
  match body with
  | .ok m => .ok m
  | .error _ => .error .holderGenerationError

/-- The invariant of claim C9 for one record: the surface is front, back or
bottom, and the orientation is horizontal. -/
def placementOk (info : PlacementInfo) : Prop :=
  (info.placement = TextPlacement.FRONT ∨ info.placement = TextPlacement.BACK ∨
    info.placement = TextPlacement.BOTTOM) ∧
  info.orientation = TextOrientation.HORIZONTAL

/-- Every record of a placement dictionary satisfies `placementOk`. -/
def placementsOk (ps : Placements) : Prop := ∀ p ∈ ps, placementOk p.2

lemma placementsOk_setY (ps : Placements) (et : TextElementType) (y : ℚ)
    (h : placementsOk ps) : placementsOk (setY ps et y) := by
  intro p hp
  simp only [setY, List.mem_map] at hp
  obtain ⟨q, hq, rfl⟩ := hp
  by_cases hqe : q.1 = et
  · simp only [hqe, if_pos]
    exact h q hq
  · simp only [if_neg hqe]
    exact h q hq

lemma placementsOk_setMigrated (ps : Placements) (et : TextElementType)
    (ns : TextPlacement) (x y : ℚ)
    (hns : ns = TextPlacement.BACK ∨ ns = TextPlacement.BOTTOM)
    (h : placementsOk ps) : placementsOk (setMigrated ps et ns x y) := by
  intro p hp
  simp only [setMigrated, List.mem_map] at hp
  obtain ⟨q, hq, rfl⟩ := hp
  by_cases hqe : q.1 = et
  · simp only [hqe, if_pos]
    exact ⟨Or.inr hns, (h q hq).2⟩
  · simp only [if_neg hqe]
    exact h q hq

lemma overflowTarget_back_or_bottom (surface : TextPlacement) :
    overflowTarget surface = TextPlacement.BACK ∨
      overflowTarget surface = TextPlacement.BOTTOM := by
  unfold overflowTarget
  by_cases hs : surface = TextPlacement.FRONT <;> simp [hs]

lemma stackLoop_placementsOk (sq : List (TextElementType × ℚ × ℚ))
    (surfs : TextPlacement → ℚ × ℚ) (surface : TextPlacement) :
    ∀ (fuel i : ℕ) (y : ℚ) (st st' : RefineState),
      stackLoop sq surfs surface fuel i y st = Except.ok st' →
      placementsOk st.result → placementsOk st'.result := by
  intro fuel
  induction fuel with
  | zero =>
    intro i y st st' hrun
    simp [stackLoop] at hrun
  | succ n ih =>
    intro i y st st' hrun hok
    rw [stackLoop] at hrun
    dsimp only at hrun
    split at hrun
    · split at hrun
      · refine ih _ _ _ _ hrun ?_
        exact placementsOk_setMigrated _ _ _ _ _ (overflowTarget_back_or_bottom surface)
          (placementsOk_setY _ _ _ hok)
      · exact ih _ _ _ _ hrun (placementsOk_setY _ _ _ hok)
    · cases hrun
      exact hok

lemma surfacesLoop_placementsOk (sq : List (TextElementType × ℚ × ℚ))
    (surfs : TextPlacement → ℚ × ℚ) (fuel : ℕ) :
    ∀ (keys : List TextPlacement) (n0 : ℕ) (st st' : RefineState),
      surfacesLoop sq surfs fuel keys n0 st = Except.ok st' →
      placementsOk st.result → placementsOk st'.result := by
  intro keys
  induction keys with
  | nil =>
    intro n0 st st' hrun hok
    rw [surfacesLoop] at hrun
    split at hrun
    · cases hrun
      exact hok
    · cases hrun
  | cons s rest ih =>
    intro n0 st st' hrun hok
    rw [surfacesLoop] at hrun
    dsimp only at hrun
    split at hrun
    · cases hrun
    · split at hrun
      · exact ih _ _ _ hrun hok
      · split at hrun
        · cases hrun
        · rename_i st2 hst2
          exact ih _ _ _ hrun (stackLoop_placementsOk _ _ _ _ _ _ _ _ hst2 hok)

lemma initialPlacements_placementsOk (width height depth : ℚ)
    (tc : List (TextElementType × TextContent)) :
    placementsOk (initialPlacements width height depth tc) := by
  intro p hp
  simp only [initialPlacements, List.mem_map] at hp
  obtain ⟨q, hq, rfl⟩ := hp
  cases h1 : q.1 <;>
    simp [initialPlacementInfo, defaultPlacement, placementOk, surfaceDims]

lemma refine_placementsOk (fuel : ℕ) (initial : Placements)
    (surfs : TextPlacement → ℚ × ℚ) (sq : List (TextElementType × ℚ × ℚ))
    (out : Placements)
    (h : refineTextPlacements fuel initial surfs sq = Except.ok out)
    (hok : placementsOk initial) : placementsOk out := by
  unfold refineTextPlacements at h
  dsimp only at h
  cases hrun : surfacesLoop sq surfs fuel ((groupBySurface initial).map Prod.fst)
      (groupBySurface initial).length ⟨initial, groupBySurface initial⟩ with
  | error e =>
    rw [hrun] at h
    simp [Except.map] at h
  | ok st =>
    rw [hrun] at h
    simp only [Except.map, Except.ok.injEq] at h
    subst h
    exact surfacesLoop_placementsOk _ _ _ _ _ _ _ hrun hok

lemma applyMaxWidth_scale (dims : RVec3) (c : Option ℝ)
    (hw : 0 < dims.1) (hc : ∀ m, c = some m → 0 < m) :
    ∃ s : ℝ, 0 < s ∧ s ≤ 1 ∧
      applyMaxWidth dims c = (dims.1 * s, dims.2.1 * s, dims.2.2 * s) := by
  match c with
  | none =>
    exact ⟨1, one_pos, le_refl 1, by simp [applyMaxWidth]⟩
  | some m =>
    have hm : 0 < m := hc m rfl
    by_cases htr : m ≠ 0 ∧ dims.1 > m
    · refine ⟨m / dims.1, div_pos hm hw, le_of_lt ((div_lt_one hw).2 htr.2), ?_⟩
      simp only [applyMaxWidth, if_pos htr]
      refine Prod.ext ?_ rfl
      field_simp
    · exact ⟨1, one_pos, le_refl 1, by simp [applyMaxWidth, htr]⟩

lemma applyMaxWidth_le (dims : RVec3) (m : ℝ) (hm : 0 < m) :
    (applyMaxWidth dims (some m)).1 ≤ m := by
  by_cases htr : m ≠ 0 ∧ dims.1 > m
  · simp [applyMaxWidth, htr]
  · simp only [applyMaxWidth, if_neg htr]
    push_neg at htr
    exact le_of_not_lt fun hlt => absurd (htr (ne_of_gt hm)) (not_le.2 hlt)

lemma applyMaxHeight_scale (dims : RVec3) (c : Option ℝ)
    (hh : 0 < dims.2.1) (hc : ∀ m, c = some m → 0 < m) :
    ∃ s : ℝ, 0 < s ∧ s ≤ 1 ∧
      applyMaxHeight dims c = (dims.1 * s, dims.2.1 * s, dims.2.2 * s) := by
  match c with
  | none =>
    exact ⟨1, one_pos, le_refl 1, by simp [applyMaxHeight]⟩
  | some m =>
    have hm : 0 < m := hc m rfl
    by_cases htr : m ≠ 0 ∧ dims.2.1 > m
    · refine ⟨m / dims.2.1, div_pos hm hh, le_of_lt ((div_lt_one hh).2 htr.2), ?_⟩
      simp only [applyMaxHeight, if_pos htr]
      refine Prod.ext rfl (Prod.ext ?_ rfl)
      show m = dims.2.1 * (m / dims.2.1)
      field_simp
    · exact ⟨1, one_pos, le_refl 1, by simp [applyMaxHeight, htr]⟩

lemma applyMaxHeight_le (dims : RVec3) (m : ℝ) (hm : 0 < m) :
    (applyMaxHeight dims (some m)).2.1 ≤ m := by
  by_cases htr : m ≠ 0 ∧ dims.2.1 > m
  · simp [applyMaxHeight, htr]
  · simp only [applyMaxHeight, if_neg htr]
    push_neg at htr
    exact le_of_not_lt fun hlt => absurd (htr (ne_of_gt hm)) (not_le.2 hlt)

lemma applyMaxDepth_scale (dims : RVec3) (c : Option ℝ)
    (hd : 0 < dims.2.2) (hc : ∀ m, c = some m → 0 < m) :
    ∃ s : ℝ, 0 < s ∧ s ≤ 1 ∧
      applyMaxDepth dims c = (dims.1 * s, dims.2.1 * s, dims.2.2 * s) := by
  match c with
  | none =>
    exact ⟨1, one_pos, le_refl 1, by simp [applyMaxDepth]⟩
  | some m =>
    have hm : 0 < m := hc m rfl
    by_cases htr : m ≠ 0 ∧ dims.2.2 > m
    · refine ⟨m / dims.2.2, div_pos hm hd, le_of_lt ((div_lt_one hd).2 htr.2), ?_⟩
      simp only [applyMaxDepth, if_pos htr]
      refine Prod.ext rfl (Prod.ext rfl ?_)
      show m = dims.2.2 * (m / dims.2.2)
      field_simp
    · exact ⟨1, one_pos, le_refl 1, by simp [applyMaxDepth, htr]⟩

lemma applyMaxDepth_le (dims : RVec3) (m : ℝ) (hm : 0 < m) :
    (applyMaxDepth dims (some m)).2.2 ≤ m := by
  by_cases htr : m ≠ 0 ∧ dims.2.2 > m
  · simp [applyMaxDepth, htr]
  · simp only [applyMaxDepth, if_neg htr]
    push_neg at htr
    exact le_of_not_lt fun hlt => absurd (htr (ne_of_gt hm)) (not_le.2 hlt)

lemma cubeRoot_cube (x : ℝ) (hx : 0 ≤ x) : (x ^ ((1 : ℝ) / 3)) ^ (3 : ℕ) = x := by
  rw [← Real.rpow_natCast (x ^ ((1 : ℝ) / 3)) 3, ← Real.rpow_mul hx]
  norm_num

lemma applyMaxVolume_scale (dims : RVec3) (c : Option ℝ)
    (hw : 0 < dims.1) (hh : 0 < dims.2.1) (hd : 0 < dims.2.2)
    (hc : ∀ m, c = some m → 0 < m) :
    ∃ s : ℝ, 0 < s ∧ s ≤ 1 ∧
      applyMaxVolume dims c = (dims.1 * s, dims.2.1 * s, dims.2.2 * s) := by
  match c with
  | none =>
    exact ⟨1, one_pos, le_refl 1, by simp [applyMaxVolume]⟩
  | some m =>
    have hm : 0 < m := hc m rfl
    have hV : 0 < dims.1 * dims.2.1 * dims.2.2 := mul_pos (mul_pos hw hh) hd
    by_cases htr : dims.1 * dims.2.1 * dims.2.2 > m
    · refine ⟨(m / (dims.1 * dims.2.1 * dims.2.2)) ^ ((1 : ℝ) / 3),
        Real.rpow_pos_of_pos (div_pos hm hV) _,
        Real.rpow_le_one (le_of_lt (div_pos hm hV))
          ((div_le_one hV).2 (le_of_lt htr)) (by norm_num), ?_⟩
      simp only [applyMaxVolume]
      rw [if_pos (ne_of_gt hm), if_pos htr]
    · exact ⟨1, one_pos, le_refl 1, by
        by_cases hz : m = 0
        · simp [applyMaxVolume, hz]
        · simp [applyMaxVolume, hz, htr]⟩

lemma applyMaxVolume_le (dims : RVec3) (m : ℝ) (hm : 0 < m)
    (hw : 0 < dims.1) (hh : 0 < dims.2.1) (hd : 0 < dims.2.2) :
    (applyMaxVolume dims (some m)).1 * (applyMaxVolume dims (some m)).2.1 *
      (applyMaxVolume dims (some m)).2.2 ≤ m := by
  have hV : 0 < dims.1 * dims.2.1 * dims.2.2 := mul_pos (mul_pos hw hh) hd
  by_cases htr : dims.1 * dims.2.1 * dims.2.2 > m
  · have hsc : (applyMaxVolume dims (some m)) =
        (dims.1 * (m / (dims.1 * dims.2.1 * dims.2.2)) ^ ((1 : ℝ) / 3),
         dims.2.1 * (m / (dims.1 * dims.2.1 * dims.2.2)) ^ ((1 : ℝ) / 3),
         dims.2.2 * (m / (dims.1 * dims.2.1 * dims.2.2)) ^ ((1 : ℝ) / 3)) := by
      simp only [applyMaxVolume]
      rw [if_pos (ne_of_gt hm), if_pos htr]
    rw [hsc]
    have hcube : ((m / (dims.1 * dims.2.1 * dims.2.2)) ^ ((1 : ℝ) / 3)) ^ (3 : ℕ) =
        m / (dims.1 * dims.2.1 * dims.2.2) :=
      cubeRoot_cube _ (le_of_lt (div_pos hm hV))
    have : dims.1 * (m / (dims.1 * dims.2.1 * dims.2.2)) ^ ((1 : ℝ) / 3) *
        (dims.2.1 * (m / (dims.1 * dims.2.1 * dims.2.2)) ^ ((1 : ℝ) / 3)) *
        (dims.2.2 * (m / (dims.1 * dims.2.1 * dims.2.2)) ^ ((1 : ℝ) / 3)) =
        (dims.1 * dims.2.1 * dims.2.2) *
          ((m / (dims.1 * dims.2.1 * dims.2.2)) ^ ((1 : ℝ) / 3)) ^ (3 : ℕ) := by
      ring
    rw [this, hcube]
    rw [mul_div_cancel₀ _ (ne_of_gt hV)]
  · have hsc : applyMaxVolume dims (some m) = dims := by
      simp only [applyMaxVolume]
      rw [if_pos (ne_of_gt hm), if_neg htr]
    rw [hsc]
    exact le_of_not_lt htr

/-- Claim C3: for every product bounding box with strictly positive padded
dimensions, padding ≥ 0, and any subset of strictly positive constraints
`max_width`, `max_height`, `max_depth`, `max_volume`, each dimension returned
by `optimize_box_dimensions` is at most its corresponding bound, and the
product width·height·depth is at most `max_volume` (exactly, in the
real-number model of float arithmetic). -/
theorem optimize_respects_bounds (min_bound max_bound : RVec3) (padding : ℝ)
    (c : BoxConstraints)
    (hw : 0 < (paddedDims min_bound max_bound padding).1)
    (hh : 0 < (paddedDims min_bound max_bound padding).2.1)
    (hd : 0 < (paddedDims min_bound max_bound padding).2.2)
    (hpad : 0 ≤ padding)
    (hcw : ∀ m, c.max_width = some m → 0 < m)
    (hch : ∀ m, c.max_height = some m → 0 < m)
    (hcd : ∀ m, c.max_depth = some m → 0 < m)
    (hcv : ∀ m, c.max_volume = some m → 0 < m) :
    (∀ m, c.max_width = some m →
      (optimizeBoxDimensions min_bound max_bound padding c).1 ≤ m) ∧
    (∀ m, c.max_height = some m →
      (optimizeBoxDimensions min_bound max_bound padding c).2.1 ≤ m) ∧
    (∀ m, c.max_depth = some m →
      (optimizeBoxDimensions min_bound max_bound padding c).2.2 ≤ m) ∧
    (∀ m, c.max_volume = some m →
      (optimizeBoxDimensions min_bound max_bound padding c).1 *
        (optimizeBoxDimensions min_bound max_bound padding c).2.1 *
        (optimizeBoxDimensions min_bound max_bound padding c).2.2 ≤ m) := by
  set d0 := paddedDims min_bound max_bound padding with hd0def
  set d1 := applyMaxWidth d0 c.max_width with hd1def
  obtain ⟨s1, hs1p, hs1le, he1⟩ := applyMaxWidth_scale d0 c.max_width hw hcw
  have h1w : 0 < d1.1 := by rw [hd1def, he1]; exact mul_pos hw hs1p
  have h1h : 0 < d1.2.1 := by rw [hd1def, he1]; exact mul_pos hh hs1p
  have h1d : 0 < d1.2.2 := by rw [hd1def, he1]; exact mul_pos hd hs1p
  set d2 := applyMaxHeight d1 c.max_height with hd2def
  obtain ⟨s2, hs2p, hs2le, he2⟩ := applyMaxHeight_scale d1 c.max_height h1h hch
  have h2w : 0 < d2.1 := by rw [hd2def, he2]; exact mul_pos h1w hs2p
  have h2h : 0 < d2.2.1 := by rw [hd2def, he2]; exact mul_pos h1h hs2p
  have h2d : 0 < d2.2.2 := by rw [hd2def, he2]; exact mul_pos h1d hs2p
  set d3 := applyMaxDepth d2 c.max_depth with hd3def
  obtain ⟨s3, hs3p, hs3le, he3⟩ := applyMaxDepth_scale d2 c.max_depth h2d hcd
  have h3w : 0 < d3.1 := by rw [hd3def, he3]; exact mul_pos h2w hs3p
  have h3h : 0 < d3.2.1 := by rw [hd3def, he3]; exact mul_pos h2h hs3p
  have h3d : 0 < d3.2.2 := by rw [hd3def, he3]; exact mul_pos h2d hs3p
  set d4 := applyMaxVolume d3 c.max_volume with hd4def
  obtain ⟨s4, hs4p, hs4le, he4⟩ := applyMaxVolume_scale d3 c.max_volume h3w h3h h3d hcv
  have hout : optimizeBoxDimensions min_bound max_bound padding c = d4 := rfl
  refine ⟨?_, ?_, ?_, ?_⟩
  · intro m hm
    have hb : d1.1 ≤ m := by
      rw [hd1def, hm]; exact applyMaxWidth_le d0 m (hcw m hm)
    have t2 : d2.1 ≤ d1.1 := by
      rw [hd2def, he2]; exact mul_le_of_le_one_right (le_of_lt h1w) hs2le
    have t3 : d3.1 ≤ d2.1 := by
      rw [hd3def, he3]; exact mul_le_of_le_one_right (le_of_lt h2w) hs3le
    have t4 : d4.1 ≤ d3.1 := by
      rw [hd4def, he4]; exact mul_le_of_le_one_right (le_of_lt h3w) hs4le
    rw [hout]
    exact le_trans t4 (le_trans t3 (le_trans t2 hb))
  · intro m hm
    have hb : d2.2.1 ≤ m := by
      rw [hd2def, hm]; exact applyMaxHeight_le d1 m (hch m hm)
    have t3 : d3.2.1 ≤ d2.2.1 := by
      rw [hd3def, he3]; exact mul_le_of_le_one_right (le_of_lt h2h) hs3le
    have t4 : d4.2.1 ≤ d3.2.1 := by
      rw [hd4def, he4]; exact mul_le_of_le_one_right (le_of_lt h3h) hs4le
    rw [hout]
    exact le_trans t4 (le_trans t3 hb)
  · intro m hm
    have hb : d3.2.2 ≤ m := by
      rw [hd3def, hm]; exact applyMaxDepth_le d2 m (hcd m hm)
    have t4 : d4.2.2 ≤ d3.2.2 := by
      rw [hd4def, he4]; exact mul_le_of_le_one_right (le_of_lt h3d) hs4le
    rw [hout]
    exact le_trans t4 hb
  · intro m hm
    rw [hout, hd4def, hm]
    exact applyMaxVolume_le d3 m (hcv m hm) h3w h3h h3d

/-- Claim C6: with `max_width` the only constraint supplied, positive and
violated, `optimize_box_dimensions` returns width equal to `max_width`
exactly, and the output height-to-width and depth-to-width ratios equal the
input ratios. -/
theorem optimize_single_width_exact (min_bound max_bound : RVec3) (padding m : ℝ)
    (hm : 0 < m)
    (hw : 0 < (paddedDims min_bound max_bound padding).1)
    (hgt : (paddedDims min_bound max_bound padding).1 > m) :
    (optimizeBoxDimensions min_bound max_bound padding ⟨some m, none, none, none⟩).1 = m ∧
    (optimizeBoxDimensions min_bound max_bound padding ⟨some m, none, none, none⟩).2.1 /
        (optimizeBoxDimensions min_bound max_bound padding ⟨some m, none, none, none⟩).1 =
      (paddedDims min_bound max_bound padding).2.1 /
        (paddedDims min_bound max_bound padding).1 ∧
    (optimizeBoxDimensions min_bound max_bound padding ⟨some m, none, none, none⟩).2.2 /
        (optimizeBoxDimensions min_bound max_bound padding ⟨some m, none, none, none⟩).1 =
      (paddedDims min_bound max_bound padding).2.2 /
        (paddedDims min_bound max_bound padding).1 := by
  have hopt : optimizeBoxDimensions min_bound max_bound padding ⟨some m, none, none, none⟩ =
      applyMaxWidth (paddedDims min_bound max_bound padding) (some m) := rfl
  have happ : applyMaxWidth (paddedDims min_bound max_bound padding) (some m) =
      (m, (paddedDims min_bound max_bound padding).2.1 *
            (m / (paddedDims min_bound max_bound padding).1),
          (paddedDims min_bound max_bound padding).2.2 *
            (m / (paddedDims min_bound max_bound padding).1)) := by
    simp only [applyMaxWidth]
    rw [if_pos ⟨ne_of_gt hm, hgt⟩]
  rw [hopt, happ]
  have hm0 : m ≠ 0 := ne_of_gt hm
  have hw0 : (paddedDims min_bound max_bound padding).1 ≠ 0 := ne_of_gt hw
  refine ⟨rfl, ?_, ?_⟩
  · show (paddedDims min_bound max_bound padding).2.1 *
        (m / (paddedDims min_bound max_bound padding).1) / m =
      (paddedDims min_bound max_bound padding).2.1 /
        (paddedDims min_bound max_bound padding).1
    field_simp
    ring
  · show (paddedDims min_bound max_bound padding).2.2 *
        (m / (paddedDims min_bound max_bound padding).1) / m =
      (paddedDims min_bound max_bound padding).2.2 /
        (paddedDims min_bound max_bound padding).1
    field_simp
    ring

lemma optimize_volume_cube_root (min_bound max_bound : RVec3) (padding m : ℝ)
    (hm : 0 < m)
    (hgt : (paddedDims min_bound max_bound padding).1 *
        (paddedDims min_bound max_bound padding).2.1 *
        (paddedDims min_bound max_bound padding).2.2 > m) :
    optimizeBoxDimensions min_bound max_bound padding ⟨none, none, none, some m⟩ =
      ((paddedDims min_bound max_bound padding).1 *
          ((m / ((paddedDims min_bound max_bound padding).1 *
              (paddedDims min_bound max_bound padding).2.1 *
              (paddedDims min_bound max_bound padding).2.2)) ^ ((1 : ℝ) / 3)),
        (paddedDims min_bound max_bound padding).2.1 *
          ((m / ((paddedDims min_bound max_bound padding).1 *
              (paddedDims min_bound max_bound padding).2.1 *
              (paddedDims min_bound max_bound padding).2.2)) ^ ((1 : ℝ) / 3)),
        (paddedDims min_bound max_bound padding).2.2 *
          ((m / ((paddedDims min_bound max_bound padding).1 *
              (paddedDims min_bound max_bound padding).2.1 *
              (paddedDims min_bound max_bound padding).2.2)) ^ ((1 : ℝ) / 3))) := by
  have hopt : optimizeBoxDimensions min_bound max_bound padding ⟨none, none, none, some m⟩ =
      applyMaxVolume (paddedDims min_bound max_bound padding) (some m) := rfl
  rw [hopt]
  simp only [applyMaxVolume]
  rw [if_pos (ne_of_gt hm), if_pos hgt]

lemma optimize_volume_concrete :
    optimizeBoxDimensions ((0 : ℝ), 0, 0) ((100 : ℝ), 100, 100) 0
      ⟨none, none, none, some 125000⟩ = ((50 : ℝ), 50, 50) := by
  have hopt : optimizeBoxDimensions ((0 : ℝ), 0, 0) ((100 : ℝ), 100, 100) 0
        ⟨none, none, none, some 125000⟩ =
      applyMaxVolume (paddedDims ((0 : ℝ), 0, 0) ((100 : ℝ), 100, 100) 0) (some 125000) := rfl
  have hd0 : paddedDims ((0 : ℝ), 0, 0) ((100 : ℝ), 100, 100) 0 = ((100 : ℝ), 100, 100) := by
    simp [paddedDims]
  rw [hopt, hd0]
  simp only [applyMaxVolume]
  rw [if_pos (by norm_num : (125000 : ℝ) ≠ 0),
    if_pos (by norm_num : (100 : ℝ) * 100 * 100 > 125000)]
  have hsc : ((125000 : ℝ) / (100 * 100 * 100)) ^ ((1 : ℝ) / 3) = 1 / 2 := by
    have h1 : (125000 : ℝ) / (100 * 100 * 100) = (1 / 2 : ℝ) ^ (3 : ℕ) := by norm_num
    rw [h1, ← Real.rpow_natCast ((1 : ℝ) / 2) 3,
      ← Real.rpow_mul (by norm_num : (0 : ℝ) ≤ 1 / 2)]
    norm_num
  rw [hsc]
  norm_num

/-- Claim C10: a constraint supplied with value `0` is treated as absent:
for every input, `optimize_box_dimensions` with `max_width = 0` (or
`max_height`, `max_depth`, `max_volume` = 0) returns exactly what it returns
with that key omitted, because Python's truthiness test skips the block. -/
theorem zero_constraint_ignored (min_bound max_bound : RVec3) (padding : ℝ)
    (mw mh md mv : Option ℝ) :
    optimizeBoxDimensions min_bound max_bound padding ⟨some 0, mh, md, mv⟩ =
      optimizeBoxDimensions min_bound max_bound padding ⟨none, mh, md, mv⟩ ∧
    optimizeBoxDimensions min_bound max_bound padding ⟨mw, some 0, md, mv⟩ =
      optimizeBoxDimensions min_bound max_bound padding ⟨mw, none, md, mv⟩ ∧
    optimizeBoxDimensions min_bound max_bound padding ⟨mw, mh, some 0, mv⟩ =
      optimizeBoxDimensions min_bound max_bound padding ⟨mw, mh, none, mv⟩ ∧
    optimizeBoxDimensions min_bound max_bound padding ⟨mw, mh, md, some 0⟩ =
      optimizeBoxDimensions min_bound max_bound padding ⟨mw, mh, md, none⟩ := by
  have hW : ∀ d : RVec3, applyMaxWidth d (some 0) = applyMaxWidth d none := by
    intro d
    simp [applyMaxWidth]
  have hH : ∀ d : RVec3, applyMaxHeight d (some 0) = applyMaxHeight d none := by
    intro d
    simp [applyMaxHeight]
  have hD : ∀ d : RVec3, applyMaxDepth d (some 0) = applyMaxDepth d none := by
    intro d
    simp [applyMaxDepth]
  have hV : ∀ d : RVec3, applyMaxVolume d (some 0) = applyMaxVolume d none := by
    intro d
    simp [applyMaxVolume]
  refine ⟨?_, ?_, ?_, ?_⟩
  · simp only [optimizeBoxDimensions]
    rw [hW]
  · simp only [optimizeBoxDimensions]
    rw [hH]
  · simp only [optimizeBoxDimensions]
    rw [hD]
  · simp only [optimizeBoxDimensions]
    rw [hV]

lemma vecLe_trans {a b c : Vec3} (h1 : vecLe a b) (h2 : vecLe b c) : vecLe a c :=
  ⟨le_trans h1.1 h2.1, le_trans h1.2.1 h2.2.1, le_trans h1.2.2 h2.2.2⟩

lemma vecMin_le_left (a b : Vec3) : vecLe (vecMin a b) a :=
  ⟨min_le_left _ _, min_le_left _ _, min_le_left _ _⟩

lemma le_vecMin {c a b : Vec3} (h1 : vecLe c a) (h2 : vecLe c b) : vecLe c (vecMin a b) :=
  ⟨le_min h1.1 h2.1, le_min h1.2.1 h2.2.1, le_min h1.2.2 h2.2.2⟩

lemma vecMax_ge_left (a b : Vec3) : vecLe a (vecMax a b) :=
  ⟨le_max_left _ _, le_max_left _ _, le_max_left _ _⟩

lemma vecMax_ge_right (a b : Vec3) : vecLe b (vecMax a b) :=
  ⟨le_max_right _ _, le_max_right _ _, le_max_right _ _⟩

lemma vecMax_le {a b c : Vec3} (h1 : vecLe a c) (h2 : vecLe b c) : vecLe (vecMax a b) c :=
  ⟨max_le h1.1 h2.1, max_le h1.2.1 h2.2.1, max_le h1.2.2 h2.2.2⟩

lemma vecLe_antisymm {a b : Vec3} (h1 : vecLe a b) (h2 : vecLe b a) : a = b := by
  obtain ⟨a1, a2, a3⟩ := a
  obtain ⟨b1, b2, b3⟩ := b
  obtain ⟨u1, u2, u3⟩ := h1
  obtain ⟨v1, v2, v3⟩ := h2
  simp only [Prod.mk.injEq]
  exact ⟨le_antisymm u1 v1, le_antisymm u2 v2, le_antisymm u3 v3⟩

lemma foldl_vecMin_le_init : ∀ (vs : List Vec3) (v : Vec3), vecLe (vs.foldl vecMin v) v := by
  intro vs
  induction vs with
  | nil => intro v; exact ⟨le_refl _, le_refl _, le_refl _⟩
  | cons u us ih =>
    intro v
    exact vecLe_trans (ih (vecMin v u)) (vecMin_le_left v u)

lemma le_foldl_vecMin : ∀ (vs : List Vec3) (v c : Vec3), vecLe c v →
    (∀ u ∈ vs, vecLe c u) → vecLe c (vs.foldl vecMin v) := by
  intro vs
  induction vs with
  | nil => intro v c hcv _; exact hcv
  | cons u us ih =>
    intro v c hcv hall
    exact ih (vecMin v u) c (le_vecMin hcv (hall u (List.mem_cons_self u _)))
      fun w hw => hall w (List.mem_cons_of_mem u hw)

lemma init_le_foldl_vecMax : ∀ (vs : List Vec3) (v : Vec3), vecLe v (vs.foldl vecMax v) := by
  intro vs
  induction vs with
  | nil => intro v; exact ⟨le_refl _, le_refl _, le_refl _⟩
  | cons u us ih =>
    intro v
    exact vecLe_trans (vecMax_ge_left v u) (ih (vecMax v u))

lemma mem_le_foldl_vecMax : ∀ (vs : List Vec3) (v u : Vec3), u ∈ vs →
    vecLe u (vs.foldl vecMax v) := by
  intro vs
  induction vs with
  | nil => intro v u hu; cases hu
  | cons w ws ih =>
    intro v u hu
    rcases List.mem_cons.1 hu with rfl | hu'
    · exact vecLe_trans (vecMax_ge_right v u) (init_le_foldl_vecMax ws (vecMax v u))
    · exact ih (vecMax v w) u hu'

lemma foldl_vecMax_le : ∀ (vs : List Vec3) (v c : Vec3), vecLe v c →
    (∀ u ∈ vs, vecLe u c) → vecLe (vs.foldl vecMax v) c := by
  intro vs
  induction vs with
  | nil => intro v c hvc _; exact hvc
  | cons u us ih =>
    intro v c hvc hall
    exact ih (vecMax v u) c (vecMax_le hvc (hall u (List.mem_cons_self u _)))
      fun w hw => hall w (List.mem_cons_of_mem u hw)

lemma vecMin_add (t a b : Vec3) :
    vecMin (vecAdd t a) (vecAdd t b) = vecAdd t (vecMin a b) := by
  obtain ⟨t1, t2, t3⟩ := t
  obtain ⟨a1, a2, a3⟩ := a
  obtain ⟨b1, b2, b3⟩ := b
  simp only [vecMin, vecAdd, Prod.mk.injEq]
  exact ⟨min_add_add_left t1 a1 b1, min_add_add_left t2 a2 b2, min_add_add_left t3 a3 b3⟩

lemma vecMax_add (t a b : Vec3) :
    vecMax (vecAdd t a) (vecAdd t b) = vecAdd t (vecMax a b) := by
  obtain ⟨t1, t2, t3⟩ := t
  obtain ⟨a1, a2, a3⟩ := a
  obtain ⟨b1, b2, b3⟩ := b
  simp only [vecMax, vecAdd, Prod.mk.injEq]
  exact ⟨max_add_add_left t1 a1 b1, max_add_add_left t2 a2 b2, max_add_add_left t3 a3 b3⟩

lemma foldl_vecMin_translate : ∀ (vs : List Vec3) (t v : Vec3),
    (vs.map (vecAdd t)).foldl vecMin (vecAdd t v) = vecAdd t (vs.foldl vecMin v) := by
  intro vs
  induction vs with
  | nil => intro t v; rfl
  | cons u us ih =>
    intro t v
    simp only [List.map_cons, List.foldl_cons, vecMin_add]
    exact ih t (vecMin v u)

lemma foldl_vecMax_translate : ∀ (vs : List Vec3) (t v : Vec3),
    (vs.map (vecAdd t)).foldl vecMax (vecAdd t v) = vecAdd t (vs.foldl vecMax v) := by
  intro vs
  induction vs with
  | nil => intro t v; rfl
  | cons u us ih =>
    intro t v
    simp only [List.map_cons, List.foldl_cons, vecMax_add]
    exact ih t (vecMax v u)

lemma meshBounds_translate (t : Vec3) (v : Vec3) (vs : List Vec3) :
    meshBounds (translateMesh t (v :: vs)) =
      some (vecAdd t (vs.foldl vecMin v), vecAdd t (vs.foldl vecMax v)) := by
  simp only [translateMesh, List.map_cons, meshBounds]
  rw [foldl_vecMin_translate, foldl_vecMax_translate]

/-- Claim C4, amended: for every padded bounding box with `min_bound ≤
max_bound` componentwise and wall thickness ≥ 0, the mesh returned by
`generate_standard_box` has its bounding-box center at
`wall_thickness − min_bound` componentwise — the shell is built at the
origin and translated by the negated original center, so it coincides with
the original bounding-box center `(min_bound + max_bound)/2` only in the
degenerate case, not in general. -/
theorem standard_box_center_general (min_bound max_bound : Vec3) (t : ℚ)
    (hle : vecLe min_bound max_bound) (ht : 0 ≤ t) :
    meshBBoxCenter (generateStandardBox min_bound max_bound t) =
      some (vecSub (t, t, t) min_bound) := by
  obtain ⟨a1, a2, a3⟩ := min_bound
  obtain ⟨b1, b2, b3⟩ := max_bound
  obtain ⟨h1, h2, h3⟩ := hle
  have hshape : meshDifference (standardBoxOuter (a1, a2, a3) (b1, b2, b3) t)
      (standardBoxInner (a1, a2, a3) (b1, b2, b3) t) =
      ((0 : ℚ), (0 : ℚ), (0 : ℚ)) ::
        [((b1 - a1 + 2 * t : ℚ), (0 : ℚ), (0 : ℚ)),
         ((0 : ℚ), (b2 - a2 + 2 * t : ℚ), (0 : ℚ)),
         ((b1 - a1 + 2 * t : ℚ), (b2 - a2 + 2 * t : ℚ), (0 : ℚ)),
         ((0 : ℚ), (0 : ℚ), (b3 - a3 + 2 * t : ℚ)),
         ((b1 - a1 + 2 * t : ℚ), (0 : ℚ), (b3 - a3 + 2 * t : ℚ)),
         ((0 : ℚ), (b2 - a2 + 2 * t : ℚ), (b3 - a3 + 2 * t : ℚ)),
         ((b1 - a1 + 2 * t : ℚ), (b2 - a2 + 2 * t : ℚ), (b3 - a3 + 2 * t : ℚ)),
         ((t + 0 : ℚ), (t + 0 : ℚ), (t + 0 : ℚ)),
         ((t + (b1 - a1) : ℚ), (t + 0 : ℚ), (t + 0 : ℚ)),
         ((t + 0 : ℚ), (t + (b2 - a2) : ℚ), (t + 0 : ℚ)),
         ((t + (b1 - a1) : ℚ), (t + (b2 - a2) : ℚ), (t + 0 : ℚ)),
         ((t + 0 : ℚ), (t + 0 : ℚ), (t + (b3 - a3) : ℚ)),
         ((t + (b1 - a1) : ℚ), (t + 0 : ℚ), (t + (b3 - a3) : ℚ)),
         ((t + 0 : ℚ), (t + (b2 - a2) : ℚ), (t + (b3 - a3) : ℚ)),
         ((t + (b1 - a1) : ℚ), (t + (b2 - a2) : ℚ), (t + (b3 - a3) : ℚ))] := rfl
  set rest : List Vec3 :=
        [((b1 - a1 + 2 * t : ℚ), (0 : ℚ), (0 : ℚ)),
         ((0 : ℚ), (b2 - a2 + 2 * t : ℚ), (0 : ℚ)),
         ((b1 - a1 + 2 * t : ℚ), (b2 - a2 + 2 * t : ℚ), (0 : ℚ)),
         ((0 : ℚ), (0 : ℚ), (b3 - a3 + 2 * t : ℚ)),
         ((b1 - a1 + 2 * t : ℚ), (0 : ℚ), (b3 - a3 + 2 * t : ℚ)),
         ((0 : ℚ), (b2 - a2 + 2 * t : ℚ), (b3 - a3 + 2 * t : ℚ)),
         ((b1 - a1 + 2 * t : ℚ), (b2 - a2 + 2 * t : ℚ), (b3 - a3 + 2 * t : ℚ)),
         ((t + 0 : ℚ), (t + 0 : ℚ), (t + 0 : ℚ)),
         ((t + (b1 - a1) : ℚ), (t + 0 : ℚ), (t + 0 : ℚ)),
         ((t + 0 : ℚ), (t + (b2 - a2) : ℚ), (t + 0 : ℚ)),
         ((t + (b1 - a1) : ℚ), (t + (b2 - a2) : ℚ), (t + 0 : ℚ)),
         ((t + 0 : ℚ), (t + 0 : ℚ), (t + (b3 - a3) : ℚ)),
         ((t + (b1 - a1) : ℚ), (t + 0 : ℚ), (t + (b3 - a3) : ℚ)),
         ((t + 0 : ℚ), (t + (b2 - a2) : ℚ), (t + (b3 - a3) : ℚ)),
         ((t + (b1 - a1) : ℚ), (t + (b2 - a2) : ℚ), (t + (b3 - a3) : ℚ))] with hrest
  have hminEq : rest.foldl vecMin ((0 : ℚ), (0 : ℚ), (0 : ℚ)) = ((0 : ℚ), (0 : ℚ), (0 : ℚ)) := by
    refine vecLe_antisymm (foldl_vecMin_le_init rest _) ?_
    refine le_foldl_vecMin rest _ _ ⟨le_refl 0, le_refl 0, le_refl 0⟩ ?_
    intro u hu
    rw [hrest] at hu
    fin_cases hu <;> exact ⟨by dsimp only; linarith, by dsimp only; linarith,
      by dsimp only; linarith⟩
  have htopmem : ((b1 - a1 + 2 * t : ℚ), (b2 - a2 + 2 * t : ℚ), (b3 - a3 + 2 * t : ℚ)) ∈ rest := by
    rw [hrest]
    simp
  have hmaxEq : rest.foldl vecMax ((0 : ℚ), (0 : ℚ), (0 : ℚ)) =
      ((b1 - a1 + 2 * t : ℚ), (b2 - a2 + 2 * t : ℚ), (b3 - a3 + 2 * t : ℚ)) := by
    refine vecLe_antisymm ?_ (mem_le_foldl_vecMax rest _ _ htopmem)
    refine foldl_vecMax_le rest _ _ ⟨by dsimp only; linarith, by dsimp only; linarith,
      by dsimp only; linarith⟩ ?_
    intro u hu
    rw [hrest] at hu
    fin_cases hu <;> exact ⟨by dsimp only; linarith, by dsimp only; linarith,
      by dsimp only; linarith⟩
  have hgen : generateStandardBox (a1, a2, a3) (b1, b2, b3) t =
      translateMesh (vecNeg (vecSMul (1 / 2) (vecAdd (a1, a2, a3) (b1, b2, b3))))
        (((0 : ℚ), (0 : ℚ), (0 : ℚ)) :: rest) := by
    rw [hrest]
    rfl
  have hbounds : meshBounds (generateStandardBox (a1, a2, a3) (b1, b2, b3) t) =
      some (vecAdd (vecNeg (vecSMul (1 / 2) (vecAdd (a1, a2, a3) (b1, b2, b3))))
              ((0 : ℚ), (0 : ℚ), (0 : ℚ)),
            vecAdd (vecNeg (vecSMul (1 / 2) (vecAdd (a1, a2, a3) (b1, b2, b3))))
              ((b1 - a1 + 2 * t : ℚ), (b2 - a2 + 2 * t : ℚ), (b3 - a3 + 2 * t : ℚ))) := by
    rw [hgen, meshBounds_translate, hminEq, hmaxEq]
  simp only [meshBBoxCenter, hbounds]
  simp only [vecAdd, vecNeg, vecSMul, vecSub, Option.some.injEq, Prod.mk.injEq]
  refine ⟨by ring, by ring, by ring⟩

/-- Claim C1: in the layout call of the overflow-migration scenario — three
elements of estimated height 50 grouped on a front surface of height 100 —
`_refine_text_placements` does not return placement records at all: after
stacking the first element it migrates both the second and the third element
to the back surface, and inserting the previously-absent back key into
`elements_by_surface` while that dict is being iterated makes the next
iterator advance raise `RuntimeError: dictionary changed size during
iteration`, so the claimed records (first two on front, third on back) are
never produced. -/
theorem refine_three_front_elements_raises :
    refineTextPlacements 10
      [(.PRODUCT_NAME, ⟨.FRONT, ⟨50, 50⟩, .HORIZONTAL, defaultStyle .PRODUCT_NAME⟩),
       (.BRAND, ⟨.FRONT, ⟨50, 50⟩, .HORIZONTAL, defaultStyle .BRAND⟩),
       (.WARNING, ⟨.FRONT, ⟨50, 50⟩, .HORIZONTAL, defaultStyle .WARNING⟩)]
      (surfaceDims 100 100 100)
      [(.PRODUCT_NAME, (80, 50)), (.BRAND, (80, 50)), (.WARNING, (80, 50))]
      = .error .runtimeError := by
  with_unfolding_all rfl

/-- Claim C2: `recommend_text_placement` does not return normally for every
input: with two front-surface elements on a box too short for both
(`box_dimensions = (40, 30, 30)`, content `PRODUCT_NAME = "A"`,
`BRAND = "B"`), overflow migration adds the previously-unoccupied back
surface to `elements_by_surface` during its iteration and the call raises
`RuntimeError` instead of returning one placement record per element. -/
theorem recommend_two_front_elements_raises :
    recommendTextPlacement 10 (40, 30, 30)
      [(.PRODUCT_NAME, .str ['A']), (.BRAND, .str ['B'])] = .error .runtimeError := by
  with_unfolding_all rfl

/-- Claim C8: for requested cavity dimensions `(100, 80, 60)` and wall
thickness 5, the shell generator's inner solid spans exactly
`(5,5,5) – (105,85,65)` (dimensions `(100,80,60)`, translated by `(5,5,5)`)
and its outer solid spans `(0,0,0) – (110,90,70)` (dimensions `(110,90,70)`,
the requested dimensions plus twice the wall thickness per axis). -/
theorem standard_box_cavity_and_envelope :
    meshBounds (standardBoxInner (0, 0, 0) (100, 80, 60) 5) =
      some ((5, 5, 5), (105, 85, 65)) ∧
    meshBounds (standardBoxOuter (0, 0, 0) (100, 80, 60) 5) =
      some ((0, 0, 0), (110, 90, 70)) := by
  constructor <;> with_unfolding_all rfl

set_option maxRecDepth 8000 in
/-- Claim C4, counterexample: for `min_bound = (0,0,0)`,
`max_bound = (100,80,60)`, wall thickness 5, the claim that the generated
mesh's bounding-box center equals the original bounding-box center
`(min_bound + max_bound)/2 = (50,40,30)` is false: the actual center is
`(5,5,5)`. -/
theorem standard_box_center_not_original_center :
    meshBBoxCenter (generateStandardBox ((0 : ℚ), 0, 0) ((100 : ℚ), 80, 60) 5) ≠
      some (vecSMul (1 / 2) (vecAdd ((0 : ℚ), 0, 0) ((100 : ℚ), 80, 60))) := by
  have hval : meshBBoxCenter (generateStandardBox ((0 : ℚ), 0, 0) ((100 : ℚ), 80, 60) 5) =
      some (5, 5, 5) := by
    with_unfolding_all rfl
  rw [hval]
  simp only [vecSMul, vecAdd, Option.some.injEq, Prod.mk.injEq, ne_eq, not_and]
  intro h
  norm_num at h

/-- Claim C4, witness for the amended theorem at `min_bound = (0,0,0)`,
`max_bound = (100,80,60)`, wall thickness 5: the returned mesh's
bounding-box center is `(5,5,5) = wall_thickness − min_bound`. -/
theorem standard_box_center_general_witness :
    meshBBoxCenter (generateStandardBox ((0 : ℚ), 0, 0) ((100 : ℚ), 80, 60) 5) =
      some (vecSub (5, 5, 5) ((0 : ℚ), 0, 0)) :=
  standard_box_center_general ((0 : ℚ), 0, 0) ((100 : ℚ), 80, 60) 5
    ⟨by norm_num, by norm_num, by norm_num⟩ (by norm_num)

/-- Claim C5, counterexample: on a zero-vertex mesh the bounding-box
computation does not fail with `GeometryError` — whether the external
bounding-box call returns (open3d returns degenerate zero bounds for an
empty mesh) or raises, `calculate_bounding_box` yields either the value or
`BoxGeneratorError`, and no `GeometryError` class exists in the
repository. -/
theorem empty_mesh_no_geometry_error :
    calculateBoundingBox (Except.ok (((0 : ℚ), 0, 0), ((0 : ℚ), 0, 0))) ≠
      Except.error PkgError.geometryError ∧
    calculateBoundingBox (Except.error PkgError.externalError) ≠
      Except.error PkgError.geometryError := by
  refine ⟨fun h => ?_, fun h => ?_⟩ <;> simp [calculateBoundingBox] at h

/-- Claim C5, amended: whatever the outcome of the wrapped computations,
`calculate_bounding_box` never produces `GeometryError` (it forwards a
returned value or re-raises as `BoxGeneratorError`), and
`generate_negative_holder` never produces `GeometryError` (it forwards a
returned mesh or re-raises as `HolderGenerationError`); there is no
explicit zero-vertex fast-fail before the boolean subtraction. -/
theorem bounding_box_holder_error_types :
    (∀ aabb : Except PkgError (Vec3 × Vec3),
      calculateBoundingBox aabb ≠ Except.error PkgError.geometryError ∧
      (calculateBoundingBox aabb = aabb ∨
        calculateBoundingBox aabb = Except.error PkgError.boxGeneratorError)) ∧
    (∀ body : Except PkgError Mesh,
      generateNegativeHolder body ≠ Except.error PkgError.geometryError ∧
      (generateNegativeHolder body = body ∨
        generateNegativeHolder body = Except.error PkgError.holderGenerationError)) := by
  constructor <;> intro x <;> cases x <;>
    simp [calculateBoundingBox, generateNegativeHolder]

/-- Claim C9: every placement record returned by a completed
`recommend_text_placement` call has its surface among front, back and bottom
and its orientation horizontal — no default placement is a side or top
surface and overflow migration only targets back or bottom, so the
side-surface vertical-rotation branch never fires. -/
theorem recommend_placements_front_back_bottom (fuel : ℕ) (boxDims : ℚ × ℚ × ℚ)
    (tc : List (TextElementType × TextContent)) (out : Placements)
    (h : recommendTextPlacement fuel boxDims tc = Except.ok out) :
    placementsOk out :=
  refine_placementsOk fuel _ _ _ out h
    (initialPlacements_placementsOk boxDims.1 boxDims.2.1 boxDims.2.2 tc)

/-- Claim C9, witness: a one-element layout call on a `(100, 100, 50)` box
returns a front-surface, horizontal record, to which the theorem applies. -/
theorem recommend_placements_front_back_bottom_witness :
    placementsOk [(TextElementType.PRODUCT_NAME,
      ⟨TextPlacement.FRONT, ⟨50, 50⟩, TextOrientation.HORIZONTAL,
        defaultStyle TextElementType.PRODUCT_NAME⟩)] :=
  recommend_placements_front_back_bottom 4 (100, 100, 50)
    [(TextElementType.PRODUCT_NAME, TextContent.str ['W'])]
    [(TextElementType.PRODUCT_NAME,
      ⟨TextPlacement.FRONT, ⟨50, 50⟩, TextOrientation.HORIZONTAL,
        defaultStyle TextElementType.PRODUCT_NAME⟩)]
    (by with_unfolding_all rfl)

/-- Claim C7: whenever `max_volume` is supplied and the current volume
exceeds it, all three dimensions are multiplied by the single factor
`(max_volume / volume) ** (1/3)` (stated here with the volume constraint
alone, where the preceding linear blocks are the identity); in particular,
input dimensions `(100,100,100)` with `max_volume = 125000` yield
`(50,50,50)`. -/
theorem optimize_volume_single_factor :
    (∀ (min_bound max_bound : RVec3) (padding m : ℝ), 0 < m →
      (paddedDims min_bound max_bound padding).1 *
          (paddedDims min_bound max_bound padding).2.1 *
          (paddedDims min_bound max_bound padding).2.2 > m →
      optimizeBoxDimensions min_bound max_bound padding ⟨none, none, none, some m⟩ =
        ((paddedDims min_bound max_bound padding).1 *
            ((m / ((paddedDims min_bound max_bound padding).1 *
                (paddedDims min_bound max_bound padding).2.1 *
                (paddedDims min_bound max_bound padding).2.2)) ^ ((1 : ℝ) / 3)),
          (paddedDims min_bound max_bound padding).2.1 *
            ((m / ((paddedDims min_bound max_bound padding).1 *
                (paddedDims min_bound max_bound padding).2.1 *
                (paddedDims min_bound max_bound padding).2.2)) ^ ((1 : ℝ) / 3)),
          (paddedDims min_bound max_bound padding).2.2 *
            ((m / ((paddedDims min_bound max_bound padding).1 *
                (paddedDims min_bound max_bound padding).2.1 *
                (paddedDims min_bound max_bound padding).2.2)) ^ ((1 : ℝ) / 3)))) ∧
    optimizeBoxDimensions ((0 : ℝ), 0, 0) ((100 : ℝ), 100, 100) 0
      ⟨none, none, none, some 125000⟩ = ((50 : ℝ), 50, 50) :=
  ⟨fun mn mx p m hm hgt => optimize_volume_cube_root mn mx p m hm hgt,
   optimize_volume_concrete⟩

/-- Claim C7, witness: the cube-root-factor clause applied at the concrete
input `(100,100,100)`, `max_volume = 125000`. -/
theorem optimize_volume_single_factor_witness :
    (0 : ℝ) < 125000 ∧
    optimizeBoxDimensions ((0 : ℝ), 0, 0) ((100 : ℝ), 100, 100) 0
        ⟨none, none, none, some 125000⟩ =
      ((paddedDims ((0 : ℝ), 0, 0) ((100 : ℝ), 100, 100) 0).1 *
          ((125000 / ((paddedDims ((0 : ℝ), 0, 0) ((100 : ℝ), 100, 100) 0).1 *
              (paddedDims ((0 : ℝ), 0, 0) ((100 : ℝ), 100, 100) 0).2.1 *
              (paddedDims ((0 : ℝ), 0, 0) ((100 : ℝ), 100, 100) 0).2.2)) ^ ((1 : ℝ) / 3)),
        (paddedDims ((0 : ℝ), 0, 0) ((100 : ℝ), 100, 100) 0).2.1 *
          ((125000 / ((paddedDims ((0 : ℝ), 0, 0) ((100 : ℝ), 100, 100) 0).1 *
              (paddedDims ((0 : ℝ), 0, 0) ((100 : ℝ), 100, 100) 0).2.1 *
              (paddedDims ((0 : ℝ), 0, 0) ((100 : ℝ), 100, 100) 0).2.2)) ^ ((1 : ℝ) / 3)),
        (paddedDims ((0 : ℝ), 0, 0) ((100 : ℝ), 100, 100) 0).2.2 *
          ((125000 / ((paddedDims ((0 : ℝ), 0, 0) ((100 : ℝ), 100, 100) 0).1 *
              (paddedDims ((0 : ℝ), 0, 0) ((100 : ℝ), 100, 100) 0).2.1 *
              (paddedDims ((0 : ℝ), 0, 0) ((100 : ℝ), 100, 100) 0).2.2)) ^ ((1 : ℝ) / 3))) :=
  ⟨by norm_num,
   optimize_volume_single_factor.1 ((0 : ℝ), 0, 0) ((100 : ℝ), 100, 100) 0 125000
     (by norm_num) (by norm_num [paddedDims])⟩

/-- Claim C3, witness: the bound theorem applied at bounds
`(0,0,0)–(100,100,100)`, padding 0, constraints
`max_width = 80, max_height = 90, max_depth = 70, max_volume = 100000`. -/
theorem optimize_respects_bounds_witness :
    (0 : ℝ) < (paddedDims ((0 : ℝ), 0, 0) ((100 : ℝ), 100, 100) 0).1 ∧
    ((∀ m, (BoxConstraints.mk (some 80) (some 90) (some 70) (some 100000)).max_width =
        some m →
      (optimizeBoxDimensions ((0 : ℝ), 0, 0) ((100 : ℝ), 100, 100) 0
        (BoxConstraints.mk (some 80) (some 90) (some 70) (some 100000))).1 ≤ m) ∧
    (∀ m, (BoxConstraints.mk (some 80) (some 90) (some 70) (some 100000)).max_height =
        some m →
      (optimizeBoxDimensions ((0 : ℝ), 0, 0) ((100 : ℝ), 100, 100) 0
        (BoxConstraints.mk (some 80) (some 90) (some 70) (some 100000))).2.1 ≤ m) ∧
    (∀ m, (BoxConstraints.mk (some 80) (some 90) (some 70) (some 100000)).max_depth =
        some m →
      (optimizeBoxDimensions ((0 : ℝ), 0, 0) ((100 : ℝ), 100, 100) 0
        (BoxConstraints.mk (some 80) (some 90) (some 70) (some 100000))).2.2 ≤ m) ∧
    (∀ m, (BoxConstraints.mk (some 80) (some 90) (some 70) (some 100000)).max_volume =
        some m →
      (optimizeBoxDimensions ((0 : ℝ), 0, 0) ((100 : ℝ), 100, 100) 0
          (BoxConstraints.mk (some 80) (some 90) (some 70) (some 100000))).1 *
        (optimizeBoxDimensions ((0 : ℝ), 0, 0) ((100 : ℝ), 100, 100) 0
          (BoxConstraints.mk (some 80) (some 90) (some 70) (some 100000))).2.1 *
        (optimizeBoxDimensions ((0 : ℝ), 0, 0) ((100 : ℝ), 100, 100) 0
          (BoxConstraints.mk (some 80) (some 90) (some 70) (some 100000))).2.2 ≤ m)) :=
  ⟨by norm_num [paddedDims],
   optimize_respects_bounds ((0 : ℝ), 0, 0) ((100 : ℝ), 100, 100) 0
     (BoxConstraints.mk (some 80) (some 90) (some 70) (some 100000))
     (by norm_num [paddedDims]) (by norm_num [paddedDims]) (by norm_num [paddedDims])
     (by norm_num)
     (by intro m hm; injection hm with h; subst h; norm_num)
     (by intro m hm; injection hm with h; subst h; norm_num)
     (by intro m hm; injection hm with h; subst h; norm_num)
     (by intro m hm; injection hm with h; subst h; norm_num)⟩

/-- Claim C6, witness: the single-constraint theorem applied at padded
dimensions `(100, 50, 40)` with `max_width = 80`. -/
theorem optimize_single_width_exact_witness :
    (0 : ℝ) < 80 ∧
    ((optimizeBoxDimensions ((0 : ℝ), 0, 0) ((100 : ℝ), 50, 40) 0
        ⟨some 80, none, none, none⟩).1 = 80 ∧
    (optimizeBoxDimensions ((0 : ℝ), 0, 0) ((100 : ℝ), 50, 40) 0
          ⟨some 80, none, none, none⟩).2.1 /
        (optimizeBoxDimensions ((0 : ℝ), 0, 0) ((100 : ℝ), 50, 40) 0
          ⟨some 80, none, none, none⟩).1 =
      (paddedDims ((0 : ℝ), 0, 0) ((100 : ℝ), 50, 40) 0).2.1 /
        (paddedDims ((0 : ℝ), 0, 0) ((100 : ℝ), 50, 40) 0).1 ∧
    (optimizeBoxDimensions ((0 : ℝ), 0, 0) ((100 : ℝ), 50, 40) 0
          ⟨some 80, none, none, none⟩).2.2 /
        (optimizeBoxDimensions ((0 : ℝ), 0, 0) ((100 : ℝ), 50, 40) 0
          ⟨some 80, none, none, none⟩).1 =
      (paddedDims ((0 : ℝ), 0, 0) ((100 : ℝ), 50, 40) 0).2.2 /
        (paddedDims ((0 : ℝ), 0, 0) ((100 : ℝ), 50, 40) 0).1) :=
  ⟨by norm_num,
   optimize_single_width_exact ((0 : ℝ), 0, 0) ((100 : ℝ), 50, 40) 0 80
     (by norm_num) (by norm_num [paddedDims]) (by norm_num [paddedDims])⟩
